import Mathlib

/-!
Shallow embedding of `c_src/rtm_watcher.c` (routemachine's netlink route
watcher) and proofs about it.

Modelling conventions:
* Byte buffers are `List Nat`, one entry per byte (values < 256 in every
  concrete buffer used here).
* The host is little-endian 64-bit Linux (x86-64/aarch64), the platform the
  program targets: multi-byte integers read from buffers are little-endian,
  pointers are 8 bytes wide, `struct rtattr` is 4 bytes, `struct nlmsghdr`
  16 bytes, `struct rtmsg` 12 bytes, `struct sockaddr_nl` 12 bytes.
* C `int` values that can go negative are modelled as `Int`; unsigned
  wrap-around is made explicit with `% 2^32`.
* Output produced with `writev` is modelled as the list of the written byte
  sequences (one entry per `writev` call, i.e. per record).
-/

namespace RtmWatcher

abbrev Bytes := List Nat

/-- Little-endian 16-bit read at byte offset `off` (e.g. `rta_len`,
`rta_type`, `nlmsg_type`). Reads past the end of the list yield 0. -/
def readU16LE (buf : Bytes) (off : Nat) : Nat :=
  buf.getD off 0 + 256 * buf.getD (off + 1) 0

/-- Little-endian 32-bit read at byte offset `off` (e.g. `nlmsg_len`,
attribute payloads read as `uint32_t`). -/
def readU32LE (buf : Bytes) (off : Nat) : Nat :=
  buf.getD off 0 + 256 * buf.getD (off + 1) 0 +
    65536 * buf.getD (off + 2) 0 + 16777216 * buf.getD (off + 3) 0

/-- The `n` little-endian bytes of the value `v` as laid out in host
memory (used for the 1-byte views `error_reply` takes of an `int` and a
`size_t`). -/
def leBytes (v n : Nat) : Bytes :=
  (List.range n).map (fun i => v / 2 ^ (8 * i) % 256)

/-- The 4 bytes of `htonl v` as laid out in memory, i.e. the big-endian
encoding of the 32-bit value `v`. -/
def u32BE (v : Nat) : Bytes :=
  [v / 16777216 % 256, v / 65536 % 256, v / 256 % 256, v % 256]

/-- Reinterpret a 32-bit unsigned value as a C `int` (two's complement). -/
def i32ofU32 (v : Nat) : Int :=
  if v % 4294967296 < 2147483648 then ((v % 4294967296 : Nat) : Int)
  else ((v % 4294967296 : Nat) : Int) - 4294967296

/- Protocol command bytes, from the `#define`s at the top of the file. -/
def RTM_CMD_ROUTE_ADD : Nat := 0
def RTM_CMD_ROUTE_DEL : Nat := 1
def RTM_CMD_ROUTE_ERR : Nat := 255

/- Kernel constants from <linux/netlink.h>, <linux/rtnetlink.h>,
<sys/socket.h> and <errno.h>. -/
def RTM_NEWROUTE : Nat := 24
def RTM_DELROUTE : Nat := 25
def NLMSG_DONE : Nat := 3
def AF_INET : Nat := 2
def AF_INET6 : Nat := 10
def RT_TABLE_MAIN : Nat := 254
def RTA_DST : Nat := 1
def RTA_GATEWAY : Nat := 5
def RTA_PRIORITY : Nat := 6
/-- `RTA_MAX` from <linux/rtnetlink.h> (`__RTA_MAX - 1`, 30 in current
headers; the proofs below only need that it is at least 13, so that the
slots for `RTA_DST`, `RTA_GATEWAY` and `RTA_PRIORITY` fall inside the
region the under-sized `memset` in `parse_attrs` actually clears). -/
def RTA_MAX : Nat := 30
def EINTR : Nat := 4
def EAGAIN : Nat := 11
def ENOBUFS : Nat := 105

/-- Modelled from the spec: `routemachine.h` (included by the watcher but
not part of the sources given) defines the reserved "self" origin
identifier `RTPROT_ROUTEMACHINE`. Only equality of `rtm_protocol` with it
matters anywhere, so an arbitrary byte value is fixed here. -/
def RTPROT_ROUTEMACHINE : Nat := 44

/-- `RTA_ALIGN`: round up to a multiple of `RTA_ALIGNTO = 4`. -/
def rtaAlign (l : Nat) : Nat := (l + 3) / 4 * 4

/-- `NLMSG_ALIGN`: round up to a multiple of `NLMSG_ALIGNTO = 4`. -/
def nlAlign (l : Nat) : Nat := (l + 3) / 4 * 4

/-- The `memset(attrs, 0, sizeof(*rta) * (RTA_MAX + 1))` at the start of
`parse_attrs`. The table is an array of `RTA_MAX + 1` 8-byte pointers, but
only `sizeof(struct rtattr) * (RTA_MAX + 1) = 4 * (rtaMax + 1)` bytes are
cleared, so only the slots whose 8 bytes lie inside that range become the
empty entry; later slots keep whatever stack garbage `init` held. (The one
slot straddling the boundary has just its low half zeroed in C; it is
modelled as untouched and no theorem below depends on it.) -/
def clearSlots (rtaMax : Nat) (init : Nat → Option Nat) : Nat → Option Nat :=
  fun i => if 8 * (i + 1) ≤ 4 * (rtaMax + 1) then none else init i

/-- The `while (RTA_OK(rta, len)) { ... rta = RTA_NEXT(rta, len); }` walk of
`parse_attrs`, over the attribute block `block`. `off` is the byte offset of
the cursor `rta` inside the block; a stored entry is the offset of the
attribute it references. `RTA_OK` demands at least a 4-byte header within
`len` and `4 ≤ rta_len ≤ len`; `RTA_NEXT` advances by `RTA_ALIGN(rta_len)`.
(C's `int len` can go negative on the last step; `Nat` truncation to 0 fails
the `4 ≤ len` test exactly when the negative value would.) -/
def parse_attrs_go (block : Bytes) (rtaMax off : Nat) (len : Nat)
    (tbl : Nat → Option Nat) : Nat → Option Nat :=
  if _h : 4 ≤ len ∧ 4 ≤ readU16LE block off ∧ readU16LE block off ≤ len then
    parse_attrs_go block rtaMax (off + rtaAlign (readU16LE block off))
      (len - rtaAlign (readU16LE block off))
      (if readU16LE block (off + 2) ≤ rtaMax then
        fun k => if k = readU16LE block (off + 2) then some off else tbl k
      else tbl)
  else tbl
termination_by len
decreasing_by
  simp only [rtaAlign]
  omega

/-- `parse_attrs`: clear the table (partially, see `clearSlots`), then walk
the block. `init` is the stack garbage the `attrs` array holds on entry. -/
def parse_attrs (block : Bytes) (rtaMax len : Nat)
    (init : Nat → Option Nat) : Nat → Option Nat :=
  parse_attrs_go block rtaMax 0 len (clearSlots rtaMax init)

/-- `error_reply`: `writev` of three iovecs — one byte of the `int err =
RTM_CMD_ROUTE_ERR`, one byte of the `size_t len = strlen(msg)`, and the
message itself (little-endian host, so the single bytes are the low bytes
of the two integers). -/
def error_reply (msg : Bytes) : Bytes :=
  (leBytes RTM_CMD_ROUTE_ERR 4).take 1 ++ (leBytes msg.length 8).take 1 ++ msg

def strBytes (s : String) : Bytes := s.toList.map Char.toNat

def msgNotARoute : Bytes := strBytes "not a route"
def msgWrongLength : Bytes := strBytes "wrong message length"
def msgBadFamily : Bytes := strBytes "bad message family"
def msgTruncated : Bytes := strBytes "truncated message"
def msgMalformed : Bytes := strBytes "malformed message"
def msgRemaining : Bytes := strBytes "unexpected remaining bytes"
def msgRecvmsg : Bytes := strBytes "recvmsg"
def msgEOF : Bytes := strBytes "recvmsg: EOF"
def msgNamelen : Bytes := strBytes "bad message namelen"

/-- What one call of `notify` does: nothing, one `error_reply`, or one
route record (`cmd`, `rtm_dst_len`, then the three variable fields exactly
as the five iovecs lay them out). `notify` itself never exits. -/
inductive NotifyResult where
  | silent : NotifyResult
  | errorRecord : Bytes → NotifyResult
  | routeRecord : Nat → Nat → Bytes → Bytes → Bytes → NotifyResult
deriving DecidableEq, Repr

/- Field accessors for a frame laid out as in C: `struct nlmsghdr` (16
bytes: u32 nlmsg_len, u16 nlmsg_type, u16 nlmsg_flags, u32 nlmsg_seq,
u32 nlmsg_pid), then `struct rtmsg` at `NLMSG_DATA` = offset 16 (bytes:
rtm_family, rtm_dst_len, rtm_src_len, rtm_tos, rtm_table, rtm_protocol,
rtm_scope, rtm_type, u32 rtm_flags), then the attributes at
`RTM_RTA(rtmp)` = offset 16 + NLMSG_ALIGN(sizeof(struct rtmsg)) = 28. -/
def nlmsg_len (buf : Bytes) : Nat := readU32LE buf 0
def nlmsg_type (buf : Bytes) : Nat := readU16LE buf 4
def rtm_family (buf : Bytes) : Nat := buf.getD 16 0
def rtm_dst_len (buf : Bytes) : Nat := buf.getD 17 0
def rtm_table (buf : Bytes) : Nat := buf.getD 20 0
def rtm_protocol (buf : Bytes) : Nat := buf.getD 21 0

/-- `len = nlmsgp->nlmsg_len - NLMSG_LENGTH(sizeof(*nlmsgp))` as an `int`:
`nlmsg_len` is `__u32`, `NLMSG_LENGTH(sizeof(struct nlmsghdr))` is
16 + 16 = 32, the subtraction wraps in 32 bits and the result is
reinterpreted as a signed `int`. -/
def notifyLen (v : Nat) : Int := i32ofU32 ((v + 4294967296 - 32) % 4294967296)

/-- `RTA_DATA(rta)` followed by reading `n` bytes: the payload starts 4
bytes past the attribute header at offset `off` in the block. (C would
read past the end of the frame if `n` exceeds the bytes present; the model
truncates at the end of the buffer, and theorems that need the full `n`
bytes assume they are present.) -/
def attr_data (block : Bytes) (off n : Nat) : Bytes :=
  (block.drop (off + 4)).take n

/-- The attribute table `notify` builds: `parse_attrs(attrs, RTM_RTA(rtmp),
len)` with the block starting at byte 28 of the frame. -/
def route_attrs (buf : Bytes) (init : Nat → Option Nat) : Nat → Option Nat :=
  parse_attrs (buf.drop 28) RTA_MAX (notifyLen (nlmsg_len buf)).toNat init

/-- `notify`, translated branch by branch from the C: type switch (default:
`error_reply("not a route")`), length check, self-protocol filter, main-table
filter, family switch (default: `error_reply("bad message family")`), then
the five-iovec route record. `init` is the stack garbage in the `attrs`
array on entry to `parse_attrs`. -/
def notify (buf : Bytes) (init : Nat → Option Nat) : NotifyResult :=
  if nlmsg_type buf = RTM_NEWROUTE ∨ nlmsg_type buf = RTM_DELROUTE then
    let cmd := if nlmsg_type buf = RTM_NEWROUTE then RTM_CMD_ROUTE_ADD
      else RTM_CMD_ROUTE_DEL
    if notifyLen (nlmsg_len buf) < 0 then NotifyResult.errorRecord msgWrongLength
    else if rtm_protocol buf = RTPROT_ROUTEMACHINE then NotifyResult.silent
    else if rtm_table buf ≠ RT_TABLE_MAIN then NotifyResult.silent
    else if rtm_family buf = AF_INET ∨ rtm_family buf = AF_INET6 then
      let host_len := if rtm_family buf = AF_INET then 4 else 16
      let attrs := route_attrs buf init
      let block := buf.drop 28
      let dst := match attrs RTA_DST with
        | some o => attr_data block o ((rtm_dst_len buf + 7) / 8)
        | none => [0, 0, 0, 0]
      let gw := match attrs RTA_GATEWAY with
        | some o => attr_data block o host_len
        | none => [0, 0, 0, 0]
      let prioBE := match attrs RTA_PRIORITY with
        | some o => u32BE (readU32LE block (o + 4))
        | none => u32BE 0
      NotifyResult.routeRecord cmd (rtm_dst_len buf) dst gw prioBE
    else NotifyResult.errorRecord msgBadFamily
  else NotifyResult.errorRecord msgNotARoute

/-- The byte sequences a `NotifyResult` puts on stdout (one entry per
`writev`). -/
def records : NotifyResult → List Bytes
  | NotifyResult.silent => []
  | NotifyResult.errorRecord m => [error_reply m]
  | NotifyResult.routeRecord cmd mask dst gw prioBE =>
      [cmd :: mask :: (dst ++ gw ++ prioBE)]

/-- Outcome of one `read_routes` call: `ret written` — the function returns
after emitting the records `written`; `fatal written errmsg` — after
emitting `written`, `error_quit` is reached with base message `errmsg`
(which writes one more error record, with a `strerror` suffix depending on
the global `errno`, and exits with status 1). -/
inductive ReadOutcome where
  | ret : List Bytes → ReadOutcome
  | fatal : List Bytes → Bytes → ReadOutcome
deriving DecidableEq, Repr

/-- The framing loop of `read_routes` (lines 235–253): `buf` is the read
buffer, `off` the byte offset of the cursor `p`, `ret` the remaining byte
count (C `int`), `trunc` whether `MSG_TRUNC` was set on the receive, `acc`
the records written so far this call. One iteration: if fewer than
`sizeof(struct nlmsghdr) = 16` bytes remain the loop ends (then the
`MSG_TRUNC` / leftover-bytes epilogue runs); otherwise a frame whose
declared length is below 16 or above `ret` hits `error_quit` ("truncated
message" if `MSG_TRUNC`, else "malformed message"); otherwise the frame is
dispatched to `notify` unless its type is `NLMSG_DONE`, and the cursor
advances by `NLMSG_ALIGN(len)`. -/
def rr_loop (buf : Bytes) (init : Nat → Option Nat) (trunc : Bool)
    (off : Nat) (ret : Int) (acc : List Bytes) : ReadOutcome :=
  if _h : 16 ≤ ret ∧ 16 ≤ i32ofU32 (readU32LE buf off) ∧
      i32ofU32 (readU32LE buf off) ≤ ret then
    rr_loop buf init trunc
      (off + nlAlign (i32ofU32 (readU32LE buf off)).toNat)
      (ret - nlAlign (i32ofU32 (readU32LE buf off)).toNat)
      (if readU16LE buf (off + 4) ≠ NLMSG_DONE then
        acc ++ records (notify (buf.drop off) init)
      else acc)
  else if 16 ≤ ret then
    if trunc then ReadOutcome.fatal acc msgTruncated
    else ReadOutcome.fatal acc msgMalformed
  else if trunc then ReadOutcome.ret acc
  else if ret ≠ 0 then ReadOutcome.fatal acc msgRemaining
  else ReadOutcome.ret acc
termination_by ret.toNat
decreasing_by
  simp only [nlAlign]
  omega

/-- What `recvmsg` produced: an error with the given `errno`, or `data`
bytes with the `MSG_TRUNC` flag state and the reported sender-address
length `msg.msg_namelen`. -/
inductive RecvResult where
  | err : Nat → RecvResult
  | ok : Bytes → Bool → Nat → RecvResult

/-- `read_routes` after the `recvmsg`: transient errnos return silently,
any other error is fatal; a zero-length read is fatal ("recvmsg: EOF"); a
sender-address length other than `sizeof(struct sockaddr_nl) = 12` is
fatal; otherwise the framing loop runs over the batch. -/
def read_routes (r : RecvResult) (init : Nat → Option Nat) : ReadOutcome :=
  match r with
  | RecvResult.err e =>
    if e = EINTR ∨ e = EAGAIN ∨ e = ENOBUFS then ReadOutcome.ret []
    else ReadOutcome.fatal [] msgRecvmsg
  | RecvResult.ok data trunc namelen =>
    if data.length = 0 then ReadOutcome.fatal [] msgEOF
    else if namelen ≠ 12 then ReadOutcome.fatal [] msgNamelen
    else rr_loop data init trunc 0 (data.length : Int) []

/-- The externally visible actions of one `main`-loop iteration, in the
order the code performs them. -/
inductive Action where
  | pollStdin : Action
  | dump : Action
  | readSock : Action
deriving DecidableEq, Repr

/-- Readiness the environment (the kernel, via `select`) grants on one
wakeup: stdin readable, socket readable, socket writable. -/
structure LoopEnv where
  stdinReady : Bool
  sockReady : Bool
  sockWritable : Bool
deriving DecidableEq, Repr

def defaultEnv : LoopEnv := { stdinReady := false, sockReady := false, sockWritable := false }

/-- One iteration of the `main` loop (lines 304–334). `armed` is whether
the socket bit is in `wset` when `select` is called. `select` rewrites
every fd set in place on return, leaving only the ready descriptors; the
loop re-arms `rset` each iteration (lines 308–309) but never re-arms the
socket in `wset`, so the write-set bit is gone after the first `select`
return no matter what: cleared by `select` itself when the socket was not
writable, and by the explicit `FD_CLR` (line 327) — after sending the
dump request and immediately attempting a read — when it was. Stdin
handling runs first, socket-readable handling last. Returns the armed
state for the next iteration and this iteration's actions. -/
def loopStep (armed : Bool) (e : LoopEnv) : Bool × List Action :=
  (false,
    (if e.stdinReady then [Action.pollStdin] else []) ++
    (if armed && e.sockWritable then [Action.dump, Action.readSock] else []) ++
    (if e.sockReady then [Action.readSock] else []))

/-- Run the loop over a (prefix of a) sequence of wakeups, collecting each
iteration's actions. -/
def loopRun (armed : Bool) : List LoopEnv → List (List Action)
  | [] => []
  | e :: es => (loopStep armed e).2 :: loopRun (loopStep armed e).1 es

def isDump : Action → Bool
  | Action.dump => true
  | _ => false

/-- Number of dump requests sent over a run. -/
def dumpCount (runs : List (List Action)) : Nat :=
  (runs.map (fun a => (a.filter isDump).length)).sum

/- Concrete inputs used by counterexamples and witnesses. -/

/-- An all-empty `attrs` array on entry (no stack garbage). -/
def noGarbage : Nat → Option Nat := fun _ => none

/-- An IPv4 `RTM_NEWROUTE` frame (44 bytes): nlmsg_len 44, type 24;
rtm_family `AF_INET`, rtm_dst_len 8, rtm_table 254, rtm_protocol 4
(`RTPROT_STATIC`); attributes: `RTA_DST` (rta_len 8, data 10.0.0.0) then
`RTA_PRIORITY` (rta_len 8, data 1). With the watcher's attribute length
44 − 32 = 12, only the first attribute is walked. -/
def bufC1 : Bytes :=
  [44,0,0,0, 24,0, 0,0, 0,0,0,0, 0,0,0,0,
   2,8,0,0, 254,4,0,0, 0,0,0,0,
   8,0,1,0, 10,0,0,0,
   8,0,6,0, 0,0,0,1]

/-- The attribute block of `bufC1` (bytes from offset 28 on). -/
def blkC1 : Bytes := [8,0,1,0, 10,0,0,0, 8,0,6,0, 0,0,0,1]

/-- An IPv6 `RTM_NEWROUTE` frame (36 bytes): nlmsg_len 36, type 24;
rtm_family `AF_INET6`, rtm_dst_len 64, rtm_table 254, rtm_protocol 4; one
attribute `RTA_OIF` (kind 4, rta_len 8) which the walk drops because the
watcher's attribute length is 36 − 32 = 4 < 8, so the table stays empty:
both destination and gateway are omitted. -/
def bufC2 : Bytes :=
  [36,0,0,0, 24,0, 0,0, 0,0,0,0, 0,0,0,0,
   10,64,0,0, 254,4,0,0, 0,0,0,0,
   8,0,4,0, 3,0,0,0]

/-- A 16-byte read batch holding one bare netlink header that declares
`nlmsg_len = 32`, i.e. a frame cut off by the kernel mid-frame. -/
def bufC3 : Bytes := [32,0,0,0, 24,0, 0,0, 0,0,0,0, 0,0,0,0]

/-- A 16-byte `RTM_NEWLINK` frame (type 16): a link notification, which the
socket's group subscriptions do deliver, and which is neither a route
addition nor a route deletion. -/
def bufC5 : Bytes := [16,0,0,0, 16,0, 0,0, 0,0,0,0, 0,0,0,0]

/-- A 28-byte route frame that passes the filters: nlmsg_len 32, type 24,
family `AF_INET`, table 254, protocol `RTPROT_ROUTEMACHINE` (= 44): a
self-authored route. -/
def bufC6 : Bytes :=
  [32,0,0,0, 24,0, 0,0, 0,0,0,0, 0,0,0,0,
   2,0,0,0, 254,44,0,0, 0,0,0,0]

/-- A 28-byte route frame with an unsupported family: nlmsg_len 32,
type 25 (`RTM_DELROUTE`), family 7 (`AF_BRIDGE`), table 254, protocol 4. -/
def bufC7 : Bytes :=
  [32,0,0,0, 25,0, 0,0, 0,0,0,0, 0,0,0,0,
   7,0,0,0, 254,4,0,0, 0,0,0,0]

/-- Stack garbage for the `parse_attrs` table: a stale entry in slot 20,
beyond the 4·(RTA_MAX+1) = 124 bytes the `memset` clears (slot 20 starts at
byte 160 of the pointer array). -/
def staleInit : Nat → Option Nat := fun i => if i = 20 then some 77 else none

/-- Three wakeups: socket writable (and readable) at the first `select`
return — the normal case for a freshly created socket — then writable
again twice. -/
def esW : List LoopEnv :=
  [{ stdinReady := false, sockReady := true, sockWritable := true },
   { stdinReady := true, sockReady := false, sockWritable := true },
   { stdinReady := false, sockReady := false, sockWritable := true }]

/-- Two wakeups: the first `select` return reports the socket NOT
writable (only stdin), the second reports it writable. -/
def esMissed : List LoopEnv :=
  [{ stdinReady := true, sockReady := false, sockWritable := false },
   { stdinReady := false, sockReady := true, sockWritable := true }]

/-- Like `bufC1`, but with the destination attribute LAST: an IPv4
`RTM_NEWROUTE` frame (44 bytes, nlmsg_len 44) whose attributes are
`RTA_TABLE` (kind 15, rta_len 8, data 254) followed by `RTA_DST`
(rta_len 8, type at frame offset 38, data 10.0.0.0) — the shape of a
dumped blackhole route. The walk's length 44 − 32 = 12 is 4 bytes short
of the 16-byte block, so the final `RTA_DST` is dropped. -/
def bufC1b : Bytes :=
  [44,0,0,0, 24,0, 0,0, 0,0,0,0, 0,0,0,0,
   2,8,0,0, 254,4,0,0, 0,0,0,0,
   8,0,15,0, 254,0,0,0,
   8,0,1,0, 10,0,0,0]

/- Helper lemmas: single-step unfoldings of the two well-founded
recursions, and facts about the event loop. -/

theorem parse_attrs_go_step (block : Bytes) (rtaMax off len : Nat)
    (tbl : Nat → Option Nat) (h1 : 4 ≤ len) (h2 : 4 ≤ readU16LE block off)
    (h3 : readU16LE block off ≤ len) :
    parse_attrs_go block rtaMax off len tbl =
      parse_attrs_go block rtaMax (off + rtaAlign (readU16LE block off))
        (len - rtaAlign (readU16LE block off))
        (if readU16LE block (off + 2) ≤ rtaMax then
          fun k => if k = readU16LE block (off + 2) then some off else tbl k
        else tbl) := by
  rw [parse_attrs_go]
  rw [dif_pos ⟨h1, h2, h3⟩]

theorem parse_attrs_go_stop (block : Bytes) (rtaMax off len : Nat)
    (tbl : Nat → Option Nat)
    (h : ¬(4 ≤ len ∧ 4 ≤ readU16LE block off ∧ readU16LE block off ≤ len)) :
    parse_attrs_go block rtaMax off len tbl = tbl := by
  rw [parse_attrs_go, dif_neg h]

theorem rr_loop_advance (buf : Bytes) (init : Nat → Option Nat)
    (trunc : Bool) (off : Nat) (ret : Int) (acc : List Bytes)
    (h1 : 16 ≤ ret) (h2 : 16 ≤ i32ofU32 (readU32LE buf off))
    (h3 : i32ofU32 (readU32LE buf off) ≤ ret) :
    rr_loop buf init trunc off ret acc =
      rr_loop buf init trunc
        (off + nlAlign (i32ofU32 (readU32LE buf off)).toNat)
        (ret - nlAlign (i32ofU32 (readU32LE buf off)).toNat)
        (if readU16LE buf (off + 4) ≠ NLMSG_DONE then
          acc ++ records (notify (buf.drop off) init)
        else acc) := by
  rw [rr_loop, dif_pos ⟨h1, h2, h3⟩]

theorem rr_loop_frame_bad (buf : Bytes) (init : Nat → Option Nat)
    (trunc : Bool) (off : Nat) (ret : Int) (acc : List Bytes)
    (h1 : 16 ≤ ret)
    (h2 : ¬(16 ≤ i32ofU32 (readU32LE buf off) ∧
      i32ofU32 (readU32LE buf off) ≤ ret)) :
    rr_loop buf init trunc off ret acc =
      if trunc then ReadOutcome.fatal acc msgTruncated
      else ReadOutcome.fatal acc msgMalformed := by
  rw [rr_loop, dif_neg (fun h => h2 ⟨h.2.1, h.2.2⟩), if_pos h1]

theorem rr_loop_exit (buf : Bytes) (init : Nat → Option Nat)
    (trunc : Bool) (off : Nat) (ret : Int) (acc : List Bytes)
    (h : ¬ 16 ≤ ret) :
    rr_loop buf init trunc off ret acc =
      if trunc then ReadOutcome.ret acc
      else if ret ≠ 0 then ReadOutcome.fatal acc msgRemaining
      else ReadOutcome.ret acc := by
  rw [rr_loop, dif_neg (fun hc => h hc.1), if_neg h]

/-- The exact record `notify` emits once a route message has passed every
filter (type, length, self-origin, table, family): the five iovecs of
lines 128–162. -/
theorem notify_route_shape (buf : Bytes) (init : Nat → Option Nat)
    (htype : nlmsg_type buf = RTM_NEWROUTE ∨ nlmsg_type buf = RTM_DELROUTE)
    (hlen : 0 ≤ notifyLen (nlmsg_len buf))
    (hprot : rtm_protocol buf ≠ RTPROT_ROUTEMACHINE)
    (htab : rtm_table buf = RT_TABLE_MAIN)
    (hfam : rtm_family buf = AF_INET ∨ rtm_family buf = AF_INET6) :
    notify buf init = NotifyResult.routeRecord
      (if nlmsg_type buf = RTM_NEWROUTE then RTM_CMD_ROUTE_ADD
        else RTM_CMD_ROUTE_DEL)
      (rtm_dst_len buf)
      (match route_attrs buf init RTA_DST with
        | some o => attr_data (buf.drop 28) o ((rtm_dst_len buf + 7) / 8)
        | none => [0, 0, 0, 0])
      (match route_attrs buf init RTA_GATEWAY with
        | some o => attr_data (buf.drop 28) o
            (if rtm_family buf = AF_INET then 4 else 16)
        | none => [0, 0, 0, 0])
      (match route_attrs buf init RTA_PRIORITY with
        | some o => u32BE (readU32LE (buf.drop 28) (o + 4))
        | none => u32BE 0) := by
  simp only [notify]
  rw [if_pos htype, if_neg (by omega : ¬ notifyLen (nlmsg_len buf) < 0)]
  rw [if_neg hprot, if_neg (by simp [htab]), if_pos hfam]

theorem route_attrs_bufC1 (k : Nat) :
    route_attrs bufC1 noGarbage k =
      (fun t => if t = 1 then some 0 else clearSlots 30 noGarbage t) k := by
  show parse_attrs_go (bufC1.drop 28) RTA_MAX 0
    (notifyLen (nlmsg_len bufC1)).toNat (clearSlots RTA_MAX noGarbage) k = _
  have hb : bufC1.drop 28 = blkC1 := by decide
  have hl : (notifyLen (nlmsg_len bufC1)).toNat = 12 := by decide
  rw [hb, hl]
  rw [parse_attrs_go_step blkC1 RTA_MAX 0 12 _ (by decide) (by decide) (by decide)]
  have e1 : readU16LE blkC1 0 = 8 := by decide
  have e2 : readU16LE blkC1 2 = 1 := by decide
  rw [e1, e2]
  norm_num [rtaAlign, RTA_MAX]
  rw [parse_attrs_go_stop blkC1 30 8 4 _ (by decide)]

theorem route_attrs_bufC2 (k : Nat) :
    route_attrs bufC2 noGarbage k = clearSlots 30 noGarbage k := by
  show parse_attrs_go (bufC2.drop 28) RTA_MAX 0
    (notifyLen (nlmsg_len bufC2)).toNat (clearSlots RTA_MAX noGarbage) k = _
  have hb : bufC2.drop 28 = [8,0,4,0, 3,0,0,0] := by decide
  have hl : (notifyLen (nlmsg_len bufC2)).toNat = 4 := by decide
  rw [hb, hl]
  rw [parse_attrs_go_stop _ RTA_MAX 0 4 _ (by decide)]
  rfl

theorem notify_bufC1_eval :
    notify bufC1 noGarbage =
      NotifyResult.routeRecord 0 8 [10] [0, 0, 0, 0] [0, 0, 0, 0] := by
  simp only [notify]
  rw [if_pos (by decide : nlmsg_type bufC1 = RTM_NEWROUTE ∨
    nlmsg_type bufC1 = RTM_DELROUTE)]
  rw [if_neg (by decide : ¬ notifyLen (nlmsg_len bufC1) < 0)]
  rw [if_neg (by decide : ¬ rtm_protocol bufC1 = RTPROT_ROUTEMACHINE)]
  rw [if_neg (by decide : ¬ rtm_table bufC1 ≠ RT_TABLE_MAIN)]
  rw [if_pos (by decide : rtm_family bufC1 = AF_INET ∨
    rtm_family bufC1 = AF_INET6)]
  rw [route_attrs_bufC1, route_attrs_bufC1, route_attrs_bufC1]
  norm_num [clearSlots, RTA_DST, RTA_GATEWAY, RTA_PRIORITY]
  decide

theorem route_attrs_bufC1b (k : Nat) :
    route_attrs bufC1b noGarbage k =
      (fun t => if t = 15 then some 0 else clearSlots 30 noGarbage t) k := by
  show parse_attrs_go (bufC1b.drop 28) RTA_MAX 0
    (notifyLen (nlmsg_len bufC1b)).toNat (clearSlots RTA_MAX noGarbage) k = _
  have hb : bufC1b.drop 28 = [8,0,15,0, 254,0,0,0, 8,0,1,0, 10,0,0,0] := by
    decide
  have hl : (notifyLen (nlmsg_len bufC1b)).toNat = 12 := by decide
  rw [hb, hl]
  rw [parse_attrs_go_step _ RTA_MAX 0 12 _ (by decide) (by decide) (by decide)]
  have e1 : readU16LE [8,0,15,0, 254,0,0,0, 8,0,1,0, 10,0,0,0] 0 = 8 := by decide
  have e2 : readU16LE [8,0,15,0, 254,0,0,0, 8,0,1,0, 10,0,0,0] 2 = 15 := by
    decide
  rw [e1, e2]
  norm_num [rtaAlign, RTA_MAX]
  rw [parse_attrs_go_stop _ 30 8 4 _ (by decide)]

theorem notify_bufC1b_eval :
    notify bufC1b noGarbage =
      NotifyResult.routeRecord 0 8 [0, 0, 0, 0] [0, 0, 0, 0] [0, 0, 0, 0] := by
  simp only [notify]
  rw [if_pos (by decide : nlmsg_type bufC1b = RTM_NEWROUTE ∨
    nlmsg_type bufC1b = RTM_DELROUTE)]
  rw [if_neg (by decide : ¬ notifyLen (nlmsg_len bufC1b) < 0)]
  rw [if_neg (by decide : ¬ rtm_protocol bufC1b = RTPROT_ROUTEMACHINE)]
  rw [if_neg (by decide : ¬ rtm_table bufC1b ≠ RT_TABLE_MAIN)]
  rw [if_pos (by decide : rtm_family bufC1b = AF_INET ∨
    rtm_family bufC1b = AF_INET6)]
  rw [route_attrs_bufC1b, route_attrs_bufC1b, route_attrs_bufC1b]
  norm_num [clearSlots, RTA_DST, RTA_GATEWAY, RTA_PRIORITY]
  decide

theorem notify_bufC2_eval :
    notify bufC2 noGarbage =
      NotifyResult.routeRecord 0 64 [0, 0, 0, 0] [0, 0, 0, 0] [0, 0, 0, 0] := by
  simp only [notify]
  rw [if_pos (by decide : nlmsg_type bufC2 = RTM_NEWROUTE ∨
    nlmsg_type bufC2 = RTM_DELROUTE)]
  rw [if_neg (by decide : ¬ notifyLen (nlmsg_len bufC2) < 0)]
  rw [if_neg (by decide : ¬ rtm_protocol bufC2 = RTPROT_ROUTEMACHINE)]
  rw [if_neg (by decide : ¬ rtm_table bufC2 ≠ RT_TABLE_MAIN)]
  rw [if_pos (by decide : rtm_family bufC2 = AF_INET ∨
    rtm_family bufC2 = AF_INET6)]
  rw [route_attrs_bufC2, route_attrs_bufC2, route_attrs_bufC2]
  norm_num [clearSlots, RTA_DST, RTA_GATEWAY, RTA_PRIORITY]
  decide

theorem loopRun_cons (armed : Bool) (e : LoopEnv) (es : List LoopEnv) :
    loopRun armed (e :: es) =
      (loopStep armed e).2 :: loopRun (loopStep armed e).1 es := rfl

theorem dumpCount_cons (a : List Action) (r : List (List Action)) :
    dumpCount (a :: r) = (a.filter isDump).length + dumpCount r := by
  simp [dumpCount]

theorem loopStep_dump_len (armed : Bool) (e : LoopEnv) :
    (((loopStep armed e).2).filter isDump).length =
      if armed && e.sockWritable then 1 else 0 := by
  rcases e with ⟨s, r, w⟩
  cases armed <;> cases s <;> cases r <;> cases w <;> decide

theorem loopStep_armed (armed : Bool) (e : LoopEnv) :
    (loopStep armed e).1 = false := rfl

theorem loopRun_false_dumpCount (es : List LoopEnv) :
    dumpCount (loopRun false es) = 0 := by
  induction es with
  | nil => rfl
  | cons e es ih =>
    rw [loopRun_cons, dumpCount_cons, loopStep_dump_len, loopStep_armed, ih]
    simp

theorem loopRun_dumpCount_head (es : List LoopEnv) :
    dumpCount (loopRun true es) =
      if (es.headD defaultEnv).sockWritable then 1 else 0 := by
  cases es with
  | nil => rfl
  | cons e es =>
    rw [loopRun_cons, dumpCount_cons, loopStep_dump_len, loopStep_armed,
      loopRun_false_dumpCount]
    simp

theorem loopRun_false_no_dump (es : List LoopEnv) (i : Nat) :
    Action.dump ∉ (loopRun false es).getD i [] := by
  induction es generalizing i with
  | nil => simp [loopRun]
  | cons e es ih =>
    rw [loopRun_cons]
    cases i with
    | zero =>
      rw [List.getD_cons_zero]
      rcases e with ⟨s, r, w⟩
      cases s <;> cases r <;> cases w <;> decide
    | succ i =>
      rw [List.getD_cons_succ, loopStep_armed]
      exact ih i

theorem loopRun_dump_mem_first (es : List LoopEnv) (i : Nat)
    (hmem : Action.dump ∈ (loopRun true es).getD i []) :
    i = 0 ∧ (es.headD defaultEnv).sockWritable = true ∧
    ∃ pre post, (loopRun true es).getD i [] =
      pre ++ Action.dump :: Action.readSock :: post := by
  cases es with
  | nil => simp [loopRun] at hmem
  | cons e es =>
    rw [loopRun_cons] at hmem ⊢
    cases i with
    | zero =>
      rw [List.getD_cons_zero] at hmem ⊢
      cases hw : e.sockWritable with
      | true =>
        refine ⟨rfl, by simp [hw], ?_⟩
        refine ⟨if e.stdinReady then [Action.pollStdin] else [],
          if e.sockReady then [Action.readSock] else [], ?_⟩
        simp [loopStep, hw]
      | false =>
        rcases e with ⟨s, r, w⟩
        simp at hw
        subst hw
        cases s <;> cases r <;> simp [loopStep, isDump] at hmem
    | succ i =>
      rw [List.getD_cons_succ, loopStep_armed] at hmem
      exact absurd hmem (loopRun_false_no_dump es i)

/- Claim theorems. -/

/-- Claim C10: for a message of length N, `error_reply` writes exactly
2 + N bytes: the command byte 255, one length byte equal to N mod 256 (the
low byte of the `size_t` length on the little-endian host), then the whole
message — also when N ≥ 256, where the length byte keeps only the low
8 bits while the full message is still written. -/
theorem error_reply_layout (msg : Bytes) :
    error_reply msg = 255 :: msg.length % 256 :: msg ∧
    (error_reply msg).length = 2 + msg.length := by
  have h1 : (leBytes RTM_CMD_ROUTE_ERR 4).take 1 = [255] := by decide
  have h2 : (leBytes msg.length 8).take 1 = [msg.length % 256] := by
    have hr : List.range 8 = [0, 1, 2, 3, 4, 5, 6, 7] := by decide
    simp [leBytes, hr]
  constructor
  · rw [error_reply, h1, h2]
    rfl
  · rw [error_reply, h1, h2]
    simp
    omega

/-- Claim C6: a route message (valid length) whose origin protocol is the
reserved routemachine identifier, or whose table is not the main table, is
suppressed before any output: `notify` writes nothing at all. -/
theorem notify_filters_silent (buf : Bytes) (init : Nat → Option Nat)
    (htype : nlmsg_type buf = RTM_NEWROUTE ∨ nlmsg_type buf = RTM_DELROUTE)
    (hlen : 0 ≤ notifyLen (nlmsg_len buf))
    (hfilt : rtm_protocol buf = RTPROT_ROUTEMACHINE ∨
      rtm_table buf ≠ RT_TABLE_MAIN) :
    notify buf init = NotifyResult.silent ∧
    records (notify buf init) = [] := by
  have h : notify buf init = NotifyResult.silent := by
    simp only [notify]
    rw [if_pos htype, if_neg (by omega : ¬ notifyLen (nlmsg_len buf) < 0)]
    rcases hfilt with h | h
    · rw [if_pos h]
    · by_cases hp : rtm_protocol buf = RTPROT_ROUTEMACHINE
      · rw [if_pos hp]
      · rw [if_neg hp, if_pos h]
  exact ⟨h, by rw [h]; rfl⟩

/-- Claim C6 witness: a self-authored IPv4 route frame produces no
output. -/
theorem notify_filters_silent_witness :
    notify bufC6 noGarbage = NotifyResult.silent ∧
    records (notify bufC6 noGarbage) = [] :=
  notify_filters_silent bufC6 noGarbage (Or.inl (by decide)) (by decide)
    (Or.inl (by decide))

/-- Claim C7: a route message that passes the self-origin and main-table
filters but whose family is neither `AF_INET` nor `AF_INET6` produces no
route record and exactly one error record ("bad message family");
`notify` returns (a `NotifyResult` is produced; only `error_quit`, which
`notify` never calls, terminates the process). -/
theorem notify_bad_family (buf : Bytes) (init : Nat → Option Nat)
    (htype : nlmsg_type buf = RTM_NEWROUTE ∨ nlmsg_type buf = RTM_DELROUTE)
    (hlen : 0 ≤ notifyLen (nlmsg_len buf))
    (hprot : rtm_protocol buf ≠ RTPROT_ROUTEMACHINE)
    (htab : rtm_table buf = RT_TABLE_MAIN)
    (hfam : rtm_family buf ≠ AF_INET ∧ rtm_family buf ≠ AF_INET6) :
    notify buf init = NotifyResult.errorRecord msgBadFamily ∧
    records (notify buf init) = [error_reply msgBadFamily] := by
  have h : notify buf init = NotifyResult.errorRecord msgBadFamily := by
    simp only [notify]
    rw [if_pos htype, if_neg (by omega : ¬ notifyLen (nlmsg_len buf) < 0)]
    rw [if_neg hprot, if_neg (by simp [htab]), if_neg (not_or.mpr hfam)]
  exact ⟨h, by rw [h]; rfl⟩

/-- Claim C7 witness: an `AF_BRIDGE` route deletion in the main table
yields exactly one "bad message family" error record. -/
theorem notify_bad_family_witness :
    notify bufC7 noGarbage = NotifyResult.errorRecord msgBadFamily ∧
    records (notify bufC7 noGarbage) = [error_reply msgBadFamily] :=
  notify_bad_family bufC7 noGarbage (Or.inr (by decide)) (by decide)
    (by decide) (by decide) ⟨by decide, by decide⟩

/-- Claim C8: receive-error classification in `read_routes`: `EINTR`,
`EAGAIN` and `ENOBUFS` end the attempt with no output (and no state
exists to change — every variable of `read_routes` is local); any other
`recvmsg` error reaches `error_quit` (one error record, exit status 1);
a zero-length receive is fatal as "recvmsg: EOF". -/
theorem read_routes_classify (e : Nat) (trunc : Bool) (nl : Nat)
    (init : Nat → Option Nat) :
    (e = EINTR ∨ e = EAGAIN ∨ e = ENOBUFS →
      read_routes (RecvResult.err e) init = ReadOutcome.ret []) ∧
    (¬(e = EINTR ∨ e = EAGAIN ∨ e = ENOBUFS) →
      read_routes (RecvResult.err e) init = ReadOutcome.fatal [] msgRecvmsg) ∧
    read_routes (RecvResult.ok [] trunc nl) init =
      ReadOutcome.fatal [] msgEOF := by
  refine ⟨fun h => ?_, fun h => ?_, ?_⟩
  · simp only [read_routes]
    rw [if_pos h]
  · simp only [read_routes]
    rw [if_neg h]
  · simp only [read_routes]
    rw [if_pos (by decide : ([] : Bytes).length = 0)]

/-- Claim C8 witness: `EINTR` (4) is transient, `EACCES` (13) is fatal,
and a 0-byte read is fatal. -/
theorem read_routes_classify_witness :
    read_routes (RecvResult.err 4) noGarbage = ReadOutcome.ret [] ∧
    read_routes (RecvResult.err 13) noGarbage =
      ReadOutcome.fatal [] msgRecvmsg ∧
    read_routes (RecvResult.ok [] true 12) noGarbage =
      ReadOutcome.fatal [] msgEOF :=
  ⟨(read_routes_classify 4 true 12 noGarbage).1 (Or.inl (by decide)),
   (read_routes_classify 13 true 12 noGarbage).2.1 (by decide),
   (read_routes_classify 13 true 12 noGarbage).2.2⟩

/-- Claim C4 (code bug, evaluated at the failing input): `parse_attrs`
only clears `sizeof(struct rtattr) * (RTA_MAX + 1)` bytes of its
8-byte-per-slot table, so on entry garbage in slot 20 — a kind within the
supported range, with no occurrence in the (empty) attribute block —
survives the call, while kinds inside the cleared region (such as
`RTA_DST`) do map to the empty entry. -/
theorem parse_attrs_stale_slot :
    20 ≤ RTA_MAX ∧
    parse_attrs [] RTA_MAX 0 staleInit 20 = some 77 ∧
    parse_attrs [] RTA_MAX 0 staleInit RTA_DST = none := by
  refine ⟨by decide, ?_, ?_⟩
  · unfold parse_attrs
    rw [parse_attrs_go_stop _ _ _ _ _ (by decide)]
    decide
  · unfold parse_attrs
    rw [parse_attrs_go_stop _ _ _ _ _ (by decide)]
    decide

/-- Claim C5 counterexample: a dispatched `RTM_NEWLINK` (link change)
frame is not silently dropped — `notify` emits a 13-byte "not a route"
error record, so bytes are written to the output stream. -/
theorem non_route_silent_cex :
    notify bufC5 noGarbage = NotifyResult.errorRecord msgNotARoute ∧
    records (notify bufC5 noGarbage) = [error_reply msgNotARoute] ∧
    (error_reply msgNotARoute).length = 13 := by
  refine ⟨?_, ?_, by decide⟩ <;> rfl

/-- Claim C5 amended: only the dump terminator `NLMSG_DONE` is skipped
without dispatch (the loop advances past it emitting nothing); every other
dispatched message whose type is neither a route addition nor a route
deletion produces exactly one "not a route" error record and no route
event. -/
theorem non_route_handling (buf : Bytes) (init : Nat → Option Nat)
    (trunc : Bool) (off : Nat) (ret : Int) (acc : List Bytes) :
    (¬(nlmsg_type buf = RTM_NEWROUTE ∨ nlmsg_type buf = RTM_DELROUTE) →
      notify buf init = NotifyResult.errorRecord msgNotARoute ∧
      records (notify buf init) = [error_reply msgNotARoute]) ∧
    (16 ≤ ret → 16 ≤ i32ofU32 (readU32LE buf off) →
      i32ofU32 (readU32LE buf off) ≤ ret →
      readU16LE buf (off + 4) = NLMSG_DONE →
      rr_loop buf init trunc off ret acc =
        rr_loop buf init trunc
          (off + nlAlign (i32ofU32 (readU32LE buf off)).toNat)
          (ret - nlAlign (i32ofU32 (readU32LE buf off)).toNat) acc) := by
  constructor
  · intro h
    have hn : notify buf init = NotifyResult.errorRecord msgNotARoute := by
      simp only [notify]
      rw [if_neg h]
    exact ⟨hn, by rw [hn]; rfl⟩
  · intro h1 h2 h3 hdone
    rw [rr_loop_advance buf init trunc off ret acc h1 h2 h3]
    rw [if_neg (by simp [hdone])]

/-- Claim C5 amended, witness: the non-route frame `bufC5` gets the error
record, and a `NLMSG_DONE` frame (type 3) is passed over with no output. -/
theorem non_route_handling_witness :
    notify bufC5 noGarbage = NotifyResult.errorRecord msgNotARoute ∧
    rr_loop [16,0,0,0, 3,0, 0,0, 0,0,0,0, 0,0,0,0] noGarbage false 0 16 [] =
      rr_loop [16,0,0,0, 3,0, 0,0, 0,0,0,0, 0,0,0,0] noGarbage false 16 0 [] :=
  ⟨((non_route_handling bufC5 noGarbage false 0 16 []).1 (by decide)).1,
   by
    have h := (non_route_handling [16,0,0,0, 3,0, 0,0, 0,0,0,0, 0,0,0,0]
      noGarbage false 0 16 []).2 (by decide) (by decide) (by decide) (by decide)
    simpa using h⟩

/-- Claim C3 counterexample: a batch whose (only) frame declares a length
of 32 with just 16 bytes present, received with `MSG_TRUNC` set, is NOT
handled non-fatally: `read_routes` reaches `error_quit("truncated
message")`, which exits with status 1. -/
theorem truncated_batch_cex :
    read_routes (RecvResult.ok bufC3 true 12) noGarbage =
      ReadOutcome.fatal [] msgTruncated := by
  simp only [read_routes]
  rw [if_neg (by decide : ¬ bufC3.length = 0)]
  rw [if_neg (by decide : ¬ (12 : Nat) ≠ 12)]
  have hc : (bufC3.length : Int) = 16 := by decide
  rw [hc]
  rw [rr_loop_frame_bad bufC3 noGarbage true 0 16 [] (by decide) (by decide)]
  rfl

/-- Claim C3 amended: when a frame's declared length exceeds the bytes
remaining in the batch, the read is fatal (error record, exit status 1)
even when the kernel flagged the receive as truncated — `MSG_TRUNC` only
selects the message "truncated message" over "malformed message". The
non-fatal truncated path exists only when the loop stops with fewer bytes
than a frame header: then the records of the preceding complete frames
(`acc`) stand and the read attempt simply returns. -/
theorem truncated_batch (buf : Bytes) (init : Nat → Option Nat)
    (off : Nat) (ret : Int) (acc : List Bytes) :
    (16 ≤ ret → ret < i32ofU32 (readU32LE buf off) →
      rr_loop buf init true off ret acc = ReadOutcome.fatal acc msgTruncated) ∧
    (ret < 16 →
      rr_loop buf init true off ret acc = ReadOutcome.ret acc) := by
  constructor
  · intro h1 h2
    rw [rr_loop_frame_bad buf init true off ret acc h1 (fun hc => by omega)]
    rfl
  · intro h
    rw [rr_loop_exit buf init true off ret acc (by omega)]
    rfl

/-- Claim C3 amended, witness: the truncated single-frame batch is fatal
with the records written so far kept, and a sub-header remainder with
`MSG_TRUNC` returns non-fatally. -/
theorem truncated_batch_witness :
    rr_loop bufC3 noGarbage true 0 16 [] = ReadOutcome.fatal [] msgTruncated ∧
    rr_loop bufC3 noGarbage true 16 0 [] = ReadOutcome.ret [] :=
  ⟨(truncated_batch bufC3 noGarbage 0 16 []).1 (by decide) (by decide),
   (truncated_batch bufC3 noGarbage 16 0 []).2 (by decide)⟩

/-- Claim C1 counterexample: an accepted IPv4 route with prefix length 8
whose walked destination attribute is picked up is emitted with a 1-byte
destination field — not the 4 bytes the family implies. And the walk does
not even see every carried attribute: `bufC1b` carries `RTA_DST` (kind 1,
at frame offset 38) as its last attribute, but the walk's length
`nlmsg_len − 32` stops 4 bytes short of the block, the attribute is
dropped, and the emitted destination is the 4-byte default. -/
theorem notify_dst_width_cex :
    notify bufC1 noGarbage =
      NotifyResult.routeRecord 0 8 [10] [0, 0, 0, 0] [0, 0, 0, 0] ∧
    rtm_family bufC1 = AF_INET ∧
    ([10] : Bytes).length ≠ 4 ∧
    readU16LE bufC1b 38 = RTA_DST ∧
    route_attrs bufC1b noGarbage RTA_DST = none ∧
    notify bufC1b noGarbage =
      NotifyResult.routeRecord 0 8 [0, 0, 0, 0] [0, 0, 0, 0] [0, 0, 0, 0] :=
  ⟨notify_bufC1_eval, by decide, by decide, by decide,
   (route_attrs_bufC1b RTA_DST).trans (by decide), notify_bufC1b_eval⟩

/-- Claim C1 amended: the destination field of an emitted route record
occupies `(prefix_len + 7) / 8` bytes when the attribute walk retains a
destination attribute (whose data lies within the frame), and 4 bytes
(the width of the IPv4 any-address) otherwise — in neither case the fixed
width implied by the address family. Note the walk is passed
`nlmsg_len − NLMSG_LENGTH(sizeof(struct nlmsghdr))` = `nlmsg_len − 32`
while the attributes start at frame offset 28, 4 bytes earlier, so the
frame's last attribute always fails `RTA_OK` and is dropped: a message
carrying a destination attribute in last position also gets the 4-byte
default. -/
theorem notify_dst_width (buf : Bytes) (init : Nat → Option Nat)
    (htype : nlmsg_type buf = RTM_NEWROUTE ∨ nlmsg_type buf = RTM_DELROUTE)
    (hlen : 0 ≤ notifyLen (nlmsg_len buf))
    (hprot : rtm_protocol buf ≠ RTPROT_ROUTEMACHINE)
    (htab : rtm_table buf = RT_TABLE_MAIN)
    (hfam : rtm_family buf = AF_INET ∨ rtm_family buf = AF_INET6) :
    ∀ cmd mask dst gw prioBE,
      notify buf init = NotifyResult.routeRecord cmd mask dst gw prioBE →
      (∀ o, route_attrs buf init RTA_DST = some o →
        o + 4 + (rtm_dst_len buf + 7) / 8 ≤ (buf.drop 28).length →
        dst.length = (rtm_dst_len buf + 7) / 8) ∧
      (route_attrs buf init RTA_DST = none → dst = [0, 0, 0, 0]) := by
  intro cmd mask dst gw prioBE h
  rw [notify_route_shape buf init htype hlen hprot htab hfam] at h
  injection h with h1 h2 h3 h4 h5
  constructor
  · intro o ho hle
    rw [← h3]
    simp only [ho, attr_data]
    rw [List.length_take, List.length_drop, List.length_drop]
    rw [List.length_drop] at hle
    omega
  · intro ho
    rw [← h3]
    simp only [ho]

/-- Claim C1 amended, witness: for `bufC1` (IPv4, prefix length 8,
destination attribute present) the destination field has
`(8 + 7) / 8 = 1` byte. -/
theorem notify_dst_width_witness :
    ([10] : Bytes).length = (rtm_dst_len bufC1 + 7) / 8 := by
  have h := (notify_dst_width bufC1 noGarbage (Or.inl (by decide)) (by decide)
    (by decide) (by decide) (Or.inl (by decide)))
    0 8 [10] [0, 0, 0, 0] [0, 0, 0, 0] notify_bufC1_eval
  exact h.1 0 ((route_attrs_bufC1 RTA_DST).trans (by decide)) (by decide)

/-- Claim C2 counterexample: an accepted IPv6 route whose kernel message
carries neither destination nor gateway attribute is emitted with 4-byte
zero fields, not the 16-byte all-zeros IPv6 address the claim requires. -/
theorem notify_absent_default_cex :
    notify bufC2 noGarbage =
      NotifyResult.routeRecord 0 64 [0, 0, 0, 0] [0, 0, 0, 0] [0, 0, 0, 0] ∧
    rtm_family bufC2 = AF_INET6 ∧
    route_attrs bufC2 noGarbage RTA_DST = none ∧
    route_attrs bufC2 noGarbage RTA_GATEWAY = none ∧
    ([0, 0, 0, 0] : Bytes).length ≠ 16 :=
  ⟨notify_bufC2_eval, by decide,
   (route_attrs_bufC2 RTA_DST).trans (by decide),
   (route_attrs_bufC2 RTA_GATEWAY).trans (by decide), by decide⟩

/-- Claim C2 amended: when the destination or gateway attribute is absent,
the corresponding field of the emitted record is the 4-byte all-zeros
address (`struct in_addr any` with `INADDR_ANY`) for BOTH families — the
width of the IPv4 any-address, not the width implied by the message's
address family. -/
theorem notify_absent_default (buf : Bytes) (init : Nat → Option Nat)
    (htype : nlmsg_type buf = RTM_NEWROUTE ∨ nlmsg_type buf = RTM_DELROUTE)
    (hlen : 0 ≤ notifyLen (nlmsg_len buf))
    (hprot : rtm_protocol buf ≠ RTPROT_ROUTEMACHINE)
    (htab : rtm_table buf = RT_TABLE_MAIN)
    (hfam : rtm_family buf = AF_INET ∨ rtm_family buf = AF_INET6) :
    ∀ cmd mask dst gw prioBE,
      notify buf init = NotifyResult.routeRecord cmd mask dst gw prioBE →
      (route_attrs buf init RTA_DST = none → dst = [0, 0, 0, 0]) ∧
      (route_attrs buf init RTA_GATEWAY = none → gw = [0, 0, 0, 0]) := by
  intro cmd mask dst gw prioBE h
  rw [notify_route_shape buf init htype hlen hprot htab hfam] at h
  injection h with h1 h2 h3 h4 h5
  constructor
  · intro ho
    rw [← h3]
    simp only [ho]
  · intro ho
    rw [← h4]
    simp only [ho]

/-- Claim C2 amended, witness: for the IPv6 frame `bufC2`, both omitted
fields come out as the 4-byte zero address. -/
theorem notify_absent_default_witness :
    notify bufC2 noGarbage =
      NotifyResult.routeRecord 0 64 [0, 0, 0, 0] [0, 0, 0, 0] [0, 0, 0, 0] ∧
    ([0, 0, 0, 0] : Bytes) = [0, 0, 0, 0] ∧
    ([0, 0, 0, 0] : Bytes) = [0, 0, 0, 0] := by
  have h := (notify_absent_default bufC2 noGarbage (Or.inl (by decide))
    (by decide) (by decide) (by decide) (Or.inr (by decide)))
    0 64 [0, 0, 0, 0] [0, 0, 0, 0] [0, 0, 0, 0] notify_bufC2_eval
  exact ⟨notify_bufC2_eval,
    h.1 ((route_attrs_bufC2 RTA_DST).trans (by decide)),
    h.2 ((route_attrs_bufC2 RTA_GATEWAY).trans (by decide))⟩

/-- Claim C9 counterexample: in the run `esMissed` — first `select`
return not writable, second writable — the dump request is never sent at
all, although a writability readiness of the channel occurs: `select`
rewrote `wset` in place on the first return and the loop never re-arms
the socket bit, so the claimed "sent exactly once, on the first
writability readiness" fails. -/
theorem dump_once_cex :
    dumpCount (loopRun true esMissed) = 0 ∧
    esMissed.any (fun e => e.sockWritable) = true := by
  constructor <;> decide

/-- Claim C9 amended: the dump request can be sent only on the event
loop's FIRST wakeup, because `select` rewrites `wset` in place on every
return and the loop never re-arms the socket bit. If the channel is
writable when the first `select` returns (the normal case for a freshly
created socket), the dump request is sent exactly once, immediately
followed by a channel read attempt in the same iteration, and never sent
again on any later iteration; otherwise it is never sent at all. -/
theorem dump_first_wakeup (es : List LoopEnv) :
    dumpCount (loopRun true es) =
      (if (es.headD defaultEnv).sockWritable then 1 else 0) ∧
    ∀ i, Action.dump ∈ (loopRun true es).getD i [] →
      i = 0 ∧ (es.headD defaultEnv).sockWritable = true ∧
      ∃ pre post, (loopRun true es).getD i [] =
        pre ++ Action.dump :: Action.readSock :: post :=
  ⟨loopRun_dumpCount_head es, fun i h => loopRun_dump_mem_first es i h⟩

/-- Claim C9 amended, witness: in the run `esW` (writable on the first
wakeup, and again later) the dump is sent exactly once, on iteration 0,
immediately followed by a channel read. -/
theorem dump_first_wakeup_witness :
    dumpCount (loopRun true esW) = 1 ∧
    ∃ pre post, (loopRun true esW).getD 0 [] =
      pre ++ Action.dump :: Action.readSock :: post := by
  have h := dump_first_wakeup esW
  have h2 := h.2 0 (by decide)
  exact ⟨h.1.trans (by decide), h2.2.2⟩

end RtmWatcher
